import Mathlib

/-!
# HANDIQ booking backend — shallow embedding and verification

Shallow embedding of the HANDIQ workshop-booking backend (`main.py`,
`schemas.py`).  The MongoDB document store is modelled as an in-memory
`Store` value holding the four collections the core touches (workshop,
session, booking, email); each HTTP handler becomes a pure function on
`Store`.  Handlers additionally return the list of store operations
(find / aggregate / insert / update) they issued, in order, so that
claims about which calls reach the document store are statable.

Conventions:
* Python `int` is `Int`; `float` prices/amounts are `Rat` (every number
  the program manipulates — workshop prices with two decimal digits
  times small integer seat counts — is exactly representable in binary64,
  so IEEE rounding never occurs on these paths).
* `datetime` values are epoch seconds (`Int`); `timedelta(hours=24)` is
  `86400`.
* A BSON `ObjectId` rendered as a string (`str(doc["_id"])`) is its
  canonical 24-char lowercase hex form.  Document keys in `Store` carry
  that canonical rendering.  `bson.ObjectId(s)` accepts a 24-character
  hex string of either case; `oid` below models parse success as
  `is_valid_objectid` and the parsed value as the lowercased string.
* `database.py` is not part of the sources. Its `create_document` is
  modelled from the spec: "insert-and-return-id" (§6), i.e. a plain
  insert with no validation, returning the generated id.
-/

namespace Handiq

/-- One operation issued against the document store, tagged with the
collection it targets.  Mirrors the pymongo calls `find_one`/`find`,
`aggregate`, `insert_one` (via `create_document`) and `update_one`. -/
inductive StoreOp where
  | find (coll : String)
  | aggregate (coll : String)
  | insert (coll : String)
  | update (coll : String)
  deriving DecidableEq, Repr

instance {ε α : Type} [DecidableEq ε] [DecidableEq α] :
    DecidableEq (Except ε α) := fun x y =>
  match x, y with
  | .ok a, .ok b =>
    if h : a = b then .isTrue (by rw [h])
    else .isFalse (by intro hc; cases hc; exact h rfl)
  | .error a, .error b =>
    if h : a = b then .isTrue (by rw [h])
    else .isFalse (by intro hc; cases hc; exact h rfl)
  | .ok _, .error _ => .isFalse (by intro hc; cases hc)
  | .error _, .ok _ => .isFalse (by intro hc; cases hc)

/-- `fastapi.HTTPException`: an HTTP status code plus a human-readable
detail message. -/
structure HTTPError where
  status_code : Nat
  detail : String
  deriving DecidableEq, Repr

/-- A workshop document, as seeded from `WORKSHOPS` in `main.py` and
described by `schemas.Workshop`. -/
structure Workshop where
  title : String
  slug : String
  description : String
  price : Rat
  duration_minutes : Int
  location : String
  instructor : String
  includes : List String
  images : List String
  what_you_learn : List String
  materials_provided : List String
  accent_color : Option String
  deriving DecidableEq, Repr

/-- A session document (`schemas.Session`): a scheduled instance of a
workshop with a seat capacity.  Timestamps are epoch seconds. -/
structure Session where
  workshop_slug : String
  start_time : Int
  end_time : Int
  capacity : Int
  deriving DecidableEq, Repr

/-- A booking document (`schemas.Booking`): a customer's claim on seats
in a session. -/
structure Booking where
  workshop_slug : String
  session_id : String
  customer_name : String
  customer_email : String
  customer_phone : Option String
  seats : Int
  amount : Rat
  status : String
  payment_reference : Option String
  deriving DecidableEq, Repr

/-- An email-log document: the notification records written through
`create_document("email", ...)`.  `payment_reference` is present only
on "booking_confirmed" entries (absent keys are `none`). -/
structure Email where
  type : String
  «to» : String
  subject : String
  booking_id : String
  payment_reference : Option String
  deriving DecidableEq, Repr

/-- The document store.  `sessions` and `bookings` are keyed by the
canonical string rendering of their `_id`; `nextId` drives generation
of fresh ids for inserted bookings. -/
structure Store where
  workshops : List Workshop
  sessions : List (String × Session)
  bookings : List (String × Booking)
  emails : List Email
  nextId : Nat
  deriving DecidableEq, Repr

/-- Validity of a string as a BSON `ObjectId`: 24 hex characters
(either case), per `bson.ObjectId.__init__`'s `bytes.fromhex` path. -/
def is_valid_objectid (s : String) : Bool :=
  s.length == 24 && s.toList.all fun c =>
    c.isDigit || ('a' ≤ c && c ≤ 'f') || ('A' ≤ c && c ≤ 'F')

/-- ASCII lowercasing of one character. -/
def char_lower (c : Char) : Char :=
  if 'A' ≤ c && c ≤ 'Z' then Char.ofNat (c.toNat + 32) else c

/-- The canonical rendering of the `ObjectId` parsed from `s` (only
meaningful when `is_valid_objectid s`): hex digits lowercased. -/
def oid (s : String) : String := String.mk (s.toList.map char_lower)

/-- Fresh document id for the `nextId`-th insert: `nextId` in hex,
zero-padded to the 24 characters of a canonical ObjectId rendering. -/
def genId (n : Nat) : String :=
  let s := String.mk (Nat.toDigits 16 n)
  String.mk (List.replicate (24 - s.length) '0') ++ s

/-- `db["workshop"].find_one({"slug": slug})`: first workshop document
with the given slug. -/
def find_workshop (st : Store) (slug : String) : Option Workshop :=
  st.workshops.find? fun w => w.slug == slug

/-- `db["session"].find_one({"_id": ObjectId(id_str)})`: first session
document whose `_id` equals the parsed ObjectId (keys are canonical, so
equality of ObjectIds is equality with the lowercased input). -/
def find_session_by_id (st : Store) (id_str : String) :
    Option (String × Session) :=
  st.sessions.find? fun q => q.1 == oid id_str

/-- Whether a booking counts toward consumed capacity: the aggregation
filter `{"status": {"$in": ["pending_payment", "confirmed"]}}`. -/
def counts_toward_capacity (b : Booking) : Bool :=
  b.status == "pending_payment" || b.status == "confirmed"

/-- The availability aggregation of `create_booking` / `next_session`:
`$match` on `session_id == sid` (exact string comparison) and status in
{pending_payment, confirmed}, then `$sum` of `seats`; an empty group
yields the default `0`. -/
def total_booked (bookings : List (String × Booking)) (sid : String) : Int :=
  ((bookings.filter fun q =>
      q.2.session_id == sid && counts_toward_capacity q.2).map
    fun q => q.2.seats).sum

/-- Request body of `POST /api/bookings` (`BookingRequest` in
`main.py`).  Note: no bound on `seats` is declared there. -/
structure BookingRequest where
  workshop_slug : String
  session_id : String
  customer_name : String
  customer_email : String
  customer_phone : Option String := none
  seats : Int := 1
  deriving DecidableEq, Repr

/-- Request body of `POST /api/payments/confirm`. -/
structure PaymentConfirmRequest where
  booking_id : String
  payment_reference : String
  deriving DecidableEq, Repr

/-- The booking document `create_booking` inserts: the request fields
with the computed amount and status `pending_payment`. -/
def new_booking (payload : BookingRequest) (amount : Rat) : Booking :=
  { workshop_slug := payload.workshop_slug
    session_id := payload.session_id
    customer_name := payload.customer_name
    customer_email := payload.customer_email
    customer_phone := payload.customer_phone
    seats := payload.seats
    amount := amount
    status := "pending_payment"
    payment_reference := none }

/-- The "booking_created" email-log entry `create_booking` writes. -/
def booking_created_email (payload : BookingRequest) (bid : String) : Email :=
  { type := "booking_created"
    «to» := payload.customer_email
    subject := "Your HANDIQ booking is almost complete"
    booking_id := bid
    payment_reference := none }

/-- The capacity-exceeded detail string
`f"Only {available} seats left"`. -/
def capacity_msg (available : Int) : String :=
  "Only " ++ toString available ++ " seats left"

/-- The store after a successful `create_booking`: the new booking and
its "booking_created" email appended, one id consumed. -/
def create_booking_state (st : Store) (payload : BookingRequest)
    (amount : Rat) : Store :=
  { st with
    bookings := st.bookings ++ [(genId st.nextId, new_booking payload amount)]
    emails := st.emails ++ [booking_created_email payload (genId st.nextId)]
    nextId := st.nextId + 1 }

/-- `POST /api/bookings` (`create_booking` in `main.py`).  Returns the
trace of store operations issued, and either an `HTTPException` or the
new store together with the response fields `booking_id` and `amount`
(the constant `"currency": "INR"` is omitted).

Order of effects, as in the source: find workshop by slug (404 if
absent); parse `session_id` (400 "Invalid id" if malformed — note the
workshop find has already run); find the session (400 "Invalid session"
if absent or owned by another workshop); aggregate booked seats and
compare `seats > capacity - total_booked` un-floored (400 with
`capacity_msg` if exceeded); insert the booking, insert the email. -/
def create_booking (st : Store) (payload : BookingRequest) :
    List StoreOp × Except HTTPError (Store × String × Rat) :=
  match find_workshop st payload.workshop_slug with
  | none => ([.find "workshop"], .error ⟨404, "Workshop not found"⟩)
  | some w =>
    if is_valid_objectid payload.session_id then
      match find_session_by_id st payload.session_id with
      | none =>
          ([.find "workshop", .find "session"], .error ⟨400, "Invalid session"⟩)
      | some q =>
        if q.2.workshop_slug == payload.workshop_slug then
          if payload.seats > q.2.capacity - total_booked st.bookings payload.session_id then
            ([.find "workshop", .find "session", .aggregate "booking"],
             .error ⟨400, capacity_msg (q.2.capacity - total_booked st.bookings payload.session_id)⟩)
          else
            ([.find "workshop", .find "session", .aggregate "booking",
              .insert "booking", .insert "email"],
             .ok (create_booking_state st payload (w.price * (payload.seats : Rat)),
                  genId st.nextId, w.price * (payload.seats : Rat)))
        else
          ([.find "workshop", .find "session"], .error ⟨400, "Invalid session"⟩)
    else
      ([.find "workshop"], .error ⟨400, "Invalid id"⟩)

/-- `db["booking"].update_one({"_id": key}, ...)`: rewrite the first
document whose `_id` matches, leaving the rest untouched; the `Bool` is
whether anything matched (`matched_count > 0`). -/
def update_first (l : List (String × Booking)) (key : String)
    (f : Booking → Booking) : Bool × List (String × Booking) :=
  match l with
  | [] => (false, [])
  | q :: rest =>
    if q.1 == key then (true, (q.1, f q.2) :: rest)
    else
      let r := update_first rest key f
      (r.1, q :: r.2)

/-- The update `confirm_payment` applies:
`{"$set": {"status": "confirmed", "payment_reference": ...}}`. -/
def confirm_update (payment_reference : String) (b : Booking) : Booking :=
  { b with status := "confirmed", payment_reference := some payment_reference }

/-- The "booking_confirmed" email-log entry, addressed to the customer
on the (re-fetched) booking. -/
def booking_confirmed_email (b : Booking) (payload : PaymentConfirmRequest) :
    Email :=
  { type := "booking_confirmed"
    «to» := b.customer_email
    subject := "HANDIQ Booking Confirmed"
    booking_id := payload.booking_id
    payment_reference := some payload.payment_reference }

/-- The "admin_new_booking" email-log entry, addressed to the fixed
administrative address. -/
def admin_new_booking_email (payload : PaymentConfirmRequest) : Email :=
  { type := "admin_new_booking"
    «to» := "admin@handiq.example"
    subject := "New HANDIQ Booking"
    booking_id := payload.booking_id
    payment_reference := none }

/-- `POST /api/payments/confirm` (`confirm_payment` in `main.py`).
Parses `booking_id` (400 "Invalid id" if malformed, before any store
call); issues `update_one` setting status to confirmed and storing the
payment reference, with no guard on the prior status (404 "Booking not
found" when nothing matched); re-fetches the booking and appends the
customer and admin email-log entries.  The `none` arm of the re-fetch
is unreachable (a matched update implies the key is present); the
Python code would raise an `AttributeError` there, modelled as a 500. -/
def confirm_payment (st : Store) (payload : PaymentConfirmRequest) :
    List StoreOp × Except HTTPError (Store × String) :=
  if is_valid_objectid payload.booking_id then
    let r := update_first st.bookings (oid payload.booking_id)
      (confirm_update payload.payment_reference)
    if r.1 then
      match r.2.find? (fun q => q.1 == oid payload.booking_id) with
      | some q =>
          ([.update "booking", .find "booking", .insert "email", .insert "email"],
           .ok ({ st with
                    bookings := r.2
                    emails := st.emails ++
                      [booking_confirmed_email q.2 payload,
                       admin_new_booking_email payload] },
                "confirmed"))
      | none =>
          ([.update "booking", .find "booking"],
           .error ⟨500, "Internal Server Error"⟩)
    else
      ([.update "booking"], .error ⟨404, "Booking not found"⟩)
  else
    ([], .error ⟨400, "Invalid id"⟩)

/-- `GET /api/bookings/{booking_id}` (`get_booking` in `main.py`).
Parses the id (400 before any store call if malformed), finds the
booking (404 if absent), then attaches its session (parsing the stored
`session_id`, which can itself fail with 400) and workshop.
Serialization to JSON is outside the model; the handler's data is the
booking with its optional session and workshop. -/
def get_booking (st : Store) (booking_id : String) :
    List StoreOp × Except HTTPError (Booking × Option Session × Option Workshop) :=
  if is_valid_objectid booking_id then
    match st.bookings.find? (fun q => q.1 == oid booking_id) with
    | none => ([.find "booking"], .error ⟨404, "Booking not found"⟩)
    | some q =>
      if is_valid_objectid q.2.session_id then
        ([.find "booking", .find "session", .find "workshop"],
         .ok (q.2,
              (find_session_by_id st q.2.session_id).map (fun r => r.2),
              find_workshop st q.2.workshop_slug))
      else
        ([.find "booking"], .error ⟨400, "Invalid id"⟩)
  else
    ([], .error ⟨400, "Invalid id"⟩)

/-- `db["session"].find({"start_time": {"$gte": now}}).sort("start_time", 1).limit(1)`:
the upcoming session with the least start time (first such document on
ties). -/
def earliest_upcoming (st : Store) (now : Int) : Option (String × Session) :=
  (st.sessions.filter fun q => decide (now ≤ q.2.start_time)).foldl
    (fun acc q =>
      match acc with
      | none => some q
      | some r => if q.2.start_time < r.2.start_time then some q else some r)
    none

/-- `GET /api/sessions/next` (`next_session` in `main.py`), reduced to
the data the claims are about: the globally-next upcoming session and
its `available_seats` annotation
`max(0, capacity - total_booked)` — the display path floors at 0. -/
def next_session (st : Store) (now : Int) :
    Option (String × Session × Int) :=
  match earliest_upcoming st now with
  | none => none
  | some q => some (q.1, q.2, max 0 (q.2.capacity - total_booked st.bookings q.1))

/-- The "reminder" email-log entry for a confirmed booking `(bid, b)`. -/
def reminder_email (bid : String) (b : Booking) : Email :=
  { type := "reminder"
    «to» := b.customer_email
    subject := "Reminder: Your HANDIQ workshop is in 24 hours"
    booking_id := bid
    payment_reference := none }

/-- Sessions in the reminder window:
`{"start_time": {"$gte": now, "$lte": now + 24h}}`. -/
def window_sessions (st : Store) (now : Int) : List (String × Session) :=
  st.sessions.filter fun q =>
    decide (now ≤ q.2.start_time) && decide (q.2.start_time ≤ now + 86400)

/-- Confirmed bookings of the session keyed `sid`:
`{"session_id": str(s["_id"]), "status": "confirmed"}`. -/
def confirmed_bookings (st : Store) (sid : String) :
    List (String × Booking) :=
  st.bookings.filter fun r => r.2.session_id == sid && r.2.status == "confirmed"

/-- One iteration of the reminder loop body: insert the "reminder"
email-log entry for booking `r` and increment `count`. -/
def reminder_step (acc : Store × Nat) (r : String × Booking) : Store × Nat :=
  ({ acc.1 with emails := acc.1.emails ++ [reminder_email r.1 r.2] }, acc.2 + 1)

/-- `POST /admin/send-reminders` (`send_reminders` in `main.py`): for
every session starting within the next 24 hours, insert one "reminder"
email-log entry per confirmed booking of that session, counting the
entries; returns the updated store and `reminders_created`.  Bookings
are queried against the live store, which the loop never modifies. -/
def send_reminders (st : Store) (now : Int) : Store × Nat :=
  (window_sessions st now).foldl
    (fun acc q => (confirmed_bookings st q.1).foldl reminder_step acc)
    (st, 0)

/-- The email-log entries one `send_reminders` invocation appends: one
"reminder" entry per confirmed booking of each in-window session. -/
def reminder_list (st : Store) (now : Int) : List Email :=
  ((window_sessions st now).map fun q =>
    (confirmed_bookings st q.1).map fun r => reminder_email r.1 r.2).flatten

/-- First entry of the `WORKSHOPS` seed list from `main.py`. -/
def scrapbooking_workshop : Workshop :=
  { title := "Scrapbooking Workshop"
    slug := "scrapbooking"
    description := "Create calming, memory-filled pages with premium papers and embellishments."
    price := 1999
    duration_minutes := 120
    location := "HANDIQ Studio, Indiranagar"
    instructor := "Aisha Kapoor"
    includes := ["All materials", "Tea & snacks", "Take-home kit"]
    images := ["https://images.unsplash.com/photo-1519681393784-d120267933ba"]
    what_you_learn := ["Layering", "Composition", "Binding"]
    materials_provided := ["Papers", "Stickers", "Glue", "Cutters"]
    accent_color := some "#B58E6D" }

/-- Second entry of the `WORKSHOPS` seed list from `main.py`. -/
def pottery_workshop : Workshop :=
  { title := "Pottery Workshop"
    slug := "pottery"
    description := "Mindful clay play: hand-building, wheel basics, glazing."
    price := 2499
    duration_minutes := 150
    location := "HANDIQ Studio, Indiranagar"
    instructor := "Raghav Menon"
    includes := ["Clay & tools", "Firing & glazing", "Refreshments"]
    images := ["https://images.unsplash.com/photo-1513342791620-8d83f05df3fc"]
    what_you_learn := ["Coiling", "Pinching", "Wheel basics"]
    materials_provided := ["Clay", "Tools", "Apron"]
    accent_color := some "#3F6E73" }

/-- Third entry of the `WORKSHOPS` seed list from `main.py`. -/
def resin_art_workshop : Workshop :=
  { title := "Resin Art Workshop"
    slug := "resin-art"
    description := "Create glossy, ocean-like pours with resin and pigments."
    price := 2899
    duration_minutes := 120
    location := "HANDIQ Studio, Indiranagar"
    instructor := "Naina Shah"
    includes := ["Resin & pigments", "Safety gear", "Coasters to take home"]
    images := ["https://images.unsplash.com/photo-1604076936065-c6e5f0505f01"]
    what_you_learn := ["Mixing", "Pouring", "Finishing"]
    materials_provided := ["Resin", "Pigments", "Gloves", "Masks"]
    accent_color := some "#F5B21A" }

/-- Fourth entry of the `WORKSHOPS` seed list from `main.py`. -/
def embroidery_workshop : Workshop :=
  { title := "Embroidery Workshop"
    slug := "embroidery"
    description := "Slow-stitch your calm with modern embroidery techniques."
    price := 1799
    duration_minutes := 120
    location := "HANDIQ Studio, Indiranagar"
    instructor := "Meera Iyer"
    includes := ["Hoop, needles, threads", "Design templates", "Snacks"]
    images := ["https://images.unsplash.com/photo-1600431521340-491eca880813"]
    what_you_learn := ["Backstitch", "Satin stitch", "French knots"]
    materials_provided := ["Hoop", "Fabric", "Threads", "Needles"]
    accent_color := some "#E8DCCF" }

/-- The `WORKSHOPS` seed list from `main.py`. -/
def WORKSHOPS : List Workshop :=
  [scrapbooking_workshop, pottery_workshop, resin_art_workshop,
   embroidery_workshop]

/-- A serialized client operation against the API's mutating endpoints
(the read-only endpoints do not change the store). -/
inductive Op where
  | book (payload : BookingRequest)
  | confirm (payload : PaymentConfirmRequest)
  | remind (now : Int)
  deriving DecidableEq, Repr

/-- Apply one serialized operation: a handler that raises an
`HTTPException` has performed no write (see `c10`), so the store is
unchanged on error. -/
def applyOp (st : Store) (op : Op) : Store :=
  match op with
  | .book payload =>
    match (create_booking st payload).2 with
    | .ok r => r.1
    | .error _ => st
  | .confirm payload =>
    match (confirm_payment st payload).2 with
    | .ok r => r.1
    | .error _ => st
  | .remind now => (send_reminders st now).1

/-- Run a serialized sequence of operations. -/
def runOps (st : Store) (ops : List Op) : Store :=
  ops.foldl applyOp st

/-- The seats a session actually holds: bookings belong to the session
whose ObjectId their stored `session_id` string denotes — i.e. whose
parsed (case-normalized) rendering equals the session's canonical key.
This is how the system itself ties a booking to its session everywhere
ids are parsed (`get_booking` re-resolves `b["session_id"]` through
`ObjectId`, and the gate's session lookup parses the payload id), and
it is the reading under which the spec's capacity invariant speaks of
"that session's bookings".  Note the availability aggregation in
`create_booking`/`next_session` does NOT use this: it string-matches
the raw, unnormalized `session_id` (see `total_booked`). -/
def total_booked_oid (bookings : List (String × Booking)) (key : String) : Int :=
  ((bookings.filter fun q =>
      oid q.2.session_id == key && counts_toward_capacity q.2).map
    fun q => q.2.seats).sum

/-- The spec's capacity invariant (§3/§8): no session's
pending/confirmed bookings — resolved to sessions as ObjectIds — claim
more seats than its capacity. -/
def capacityOk_oid (st : Store) : Prop :=
  ∀ q ∈ st.sessions, total_booked_oid st.bookings q.1 ≤ q.2.capacity

instance (st : Store) : Decidable (capacityOk_oid st) := by
  unfold capacityOk_oid; infer_instance

/-! Concrete states for witnesses and counterexamples. -/

/-- A store-generated session id (canonical 24-hex-char rendering). -/
def potterySessionId : String := "64a000000000000000000001"

/-- A capacity-10 pottery session. -/
def pottery_session : Session :=
  { workshop_slug := "pottery", start_time := 100, end_time := 250,
    capacity := 10 }

/-- Seeded workshops plus one capacity-10 pottery session and no
bookings: the scenario of the spec's pottery example. -/
def potteryStore : Store :=
  { workshops := WORKSHOPS
    sessions := [(potterySessionId, pottery_session)]
    bookings := []
    emails := []
    nextId := 0 }

/-- A request for 10 seats on the pottery session. -/
def bookTen : BookingRequest :=
  { workshop_slug := "pottery", session_id := potterySessionId,
    customer_name := "Asha", customer_email := "asha@example.com", seats := 10 }

/-- The store after `bookTen` succeeded against `potteryStore`. -/
def afterTen : Store := create_booking_state potteryStore bookTen 24990

/-- A subsequent request for 1 seat on the now-full pottery session. -/
def bookOne : BookingRequest :=
  { workshop_slug := "pottery", session_id := potterySessionId,
    customer_name := "Ravi", customer_email := "ravi@example.com", seats := 1 }

/-- A request for 10 more seats on the same pottery session, addressed
by the UPPERCASE hex rendering of the same ObjectId:
`bson.ObjectId` parses 24-hex-char strings of either case, so the
session lookup resolves it to the same session, but the availability
aggregation string-matches the raw payload and misses bookings stored
under the lowercase rendering. -/
def upperTen : BookingRequest :=
  { workshop_slug := "pottery", session_id := "64A000000000000000000001",
    customer_name := "Omar", customer_email := "omar@example.com", seats := 10 }

/-- The store after `bookTen` and then `upperTen` both succeeded: the
capacity-10 pottery session carries two 10-seat pending bookings. -/
def afterTwenty : Store := create_booking_state afterTen upperTen 24990

/-- A request whose `seats` lies outside the 1..10 range declared by
`schemas.Booking` (`seats: int = Field(1, ge=1, le=10)`). -/
def bookZero : BookingRequest :=
  { workshop_slug := "pottery", session_id := potterySessionId,
    customer_name := "Zed", customer_email := "zed@example.com", seats := 0 }

/-- A request whose session id fails to parse as an ObjectId. -/
def bookBadSession : BookingRequest :=
  { workshop_slug := "pottery", session_id := "zzz",
    customer_name := "Mal", customer_email := "mal@example.com", seats := 1 }

/-- A capacity-1 pottery session. -/
def ob_session : Session :=
  { workshop_slug := "pottery", start_time := 100, end_time := 250,
    capacity := 1 }

/-- A store whose single capacity-1 session is already over-booked
(3 pending/confirmed seats): its raw availability is `-2`. -/
def overbookedStore : Store :=
  { workshops := WORKSHOPS
    sessions := [(potterySessionId, ob_session)]
    bookings :=
      [("64a000000000000000000002",
        { workshop_slug := "pottery", session_id := potterySessionId,
          customer_name := "A", customer_email := "a@example.com",
          customer_phone := none, seats := 2, amount := 4998,
          status := "pending_payment", payment_reference := none }),
       ("64a000000000000000000003",
        { workshop_slug := "pottery", session_id := potterySessionId,
          customer_name := "B", customer_email := "b@example.com",
          customer_phone := none, seats := 1, amount := 2499,
          status := "confirmed", payment_reference := some "PAY_X" })]
    emails := []
    nextId := 0 }

/-- A booking in status "cancelled". -/
def cancelled_booking : Booking :=
  { workshop_slug := "pottery", session_id := potterySessionId,
    customer_name := "C", customer_email := "c@example.com",
    customer_phone := none, seats := 3, amount := 7497,
    status := "cancelled", payment_reference := none }

/-- A store holding one cancelled booking, to exercise re-confirmation
of a non-active booking. -/
def cancelledStore : Store :=
  { workshops := WORKSHOPS
    sessions := []
    bookings := [("64a0000000000000000000aa", cancelled_booking)]
    emails := []
    nextId := 0 }

/-- A confirmation request for the cancelled booking above. -/
def confirmCancelled : PaymentConfirmRequest :=
  { booking_id := "64a0000000000000000000aa", payment_reference := "PAY_123" }

/-- A confirmed booking on the in-window session below. -/
def rem_confirmed_booking : Booking :=
  { workshop_slug := "pottery", session_id := "64a0000000000000000000b1",
    customer_name := "D", customer_email := "d@example.com",
    customer_phone := none, seats := 1, amount := 2499,
    status := "confirmed", payment_reference := some "PAY_D" }

/-- A pending_payment booking on the same in-window session. -/
def rem_pending_booking : Booking :=
  { workshop_slug := "pottery", session_id := "64a0000000000000000000b1",
    customer_name := "E", customer_email := "e@example.com",
    customer_phone := none, seats := 2, amount := 4998,
    status := "pending_payment", payment_reference := none }

/-- A session starting within 24 hours carrying one confirmed and one
pending_payment booking: the reminder-count scenario. -/
def reminderStore : Store :=
  { workshops := WORKSHOPS
    sessions := [("64a0000000000000000000b1",
      { workshop_slug := "pottery", start_time := 3600, end_time := 9000,
        capacity := 10 })]
    bookings :=
      [("64a0000000000000000000b2", rem_confirmed_booking),
       ("64a0000000000000000000b3", rem_pending_booking)]
    emails := []
    nextId := 0 }

/-- A request naming a workshop slug absent from the catalog. -/
def bookNoShop : BookingRequest :=
  { workshop_slug := "knitting", session_id := potterySessionId,
    customer_name := "N", customer_email := "n@example.com", seats := 1 }

/-- A request naming the embroidery workshop but a pottery session:
the slug/session mismatch scenario. -/
def bookWrongShop : BookingRequest :=
  { workshop_slug := "embroidery", session_id := potterySessionId,
    customer_name := "W", customer_email := "w@example.com", seats := 1 }

/-! ## Helper lemmas -/

theorem update_first_matched (bs : List (String × Booking)) (key : String)
    (f : Booking → Booking) :
    (update_first bs key f).1 = bs.any fun q => q.1 == key := by
  induction bs with
  | nil => rfl
  | cons q rest ih =>
    by_cases h : q.1 == key
    · simp [update_first, h]
    · simp [update_first, h, ih]

theorem update_first_find? (bs : List (String × Booking)) (key : String)
    (f : Booking → Booking) :
    ((update_first bs key f).2.find? fun q => q.1 == key) =
      (bs.find? fun q => q.1 == key).map fun q => (q.1, f q.2) := by
  induction bs with
  | nil => rfl
  | cons q rest ih =>
    by_cases h : q.1 == key
    · simp [update_first, h, List.find?_cons]
    · simp [update_first, h, List.find?_cons, ih]

theorem create_booking_ok {st : Store} {p : BookingRequest} {st' : Store}
    {bid : String} {amt : Rat}
    (h : (create_booking st p).2 = .ok (st', bid, amt)) :
    ∃ w q, find_workshop st p.workshop_slug = some w ∧
      is_valid_objectid p.session_id = true ∧
      find_session_by_id st p.session_id = some q ∧
      q.2.workshop_slug = p.workshop_slug ∧
      p.seats ≤ q.2.capacity - total_booked st.bookings p.session_id ∧
      bid = genId st.nextId ∧
      amt = w.price * (p.seats : Rat) ∧
      st' = create_booking_state st p amt := by
  unfold create_booking at h
  split at h
  · simp at h
  case _ w hw =>
    split at h
    case isTrue hv =>
      split at h
      · simp at h
      case _ q hq =>
        split at h
        case isTrue hm =>
          split at h
          case isTrue hg => simp at h
          case isFalse hg =>
            simp only [Except.ok.injEq, Prod.mk.injEq] at h
            exact ⟨w, q, hw, hv, hq, by simpa using hm,
              Int.not_lt.mp hg, h.2.1.symm, h.2.2.symm,
              by rw [← h.1, ← h.2.2]⟩
        case isFalse hm => simp at h
    case isFalse hv => simp at h

theorem reminder_inner_foldl (l : List (String × Booking)) (acc : Store × Nat) :
    l.foldl reminder_step acc =
      ({ acc.1 with
          emails := acc.1.emails ++ l.map fun r => reminder_email r.1 r.2 },
       acc.2 + l.length) := by
  induction l generalizing acc with
  | nil => simp
  | cons r t ih =>
    rw [List.foldl_cons, ih]
    simp only [reminder_step, List.map_cons, Prod.mk.injEq]
    constructor
    · simp [List.append_assoc]
    · simp only [List.length_cons]
      omega

theorem reminder_outer_foldl (st : Store) (ws : List (String × Session))
    (acc : Store × Nat) :
    ws.foldl (fun a q => (confirmed_bookings st q.1).foldl reminder_step a) acc =
      ({ acc.1 with emails := acc.1.emails ++
          (ws.map fun q =>
            (confirmed_bookings st q.1).map fun r => reminder_email r.1 r.2).flatten },
       acc.2 +
        (ws.map fun q =>
          (confirmed_bookings st q.1).map fun r => reminder_email r.1 r.2).flatten.length) := by
  induction ws generalizing acc with
  | nil => simp
  | cons q t ih =>
    rw [List.foldl_cons, reminder_inner_foldl, ih]
    simp only [List.map_cons, List.flatten_cons, Prod.mk.injEq]
    constructor
    · simp [List.append_assoc]
    · simp only [List.length_append, List.length_map]
      omega

theorem send_reminders_eq (st : Store) (now : Int) :
    send_reminders st now =
      ({ st with emails := st.emails ++ reminder_list st now },
       (reminder_list st now).length) := by
  unfold send_reminders reminder_list
  rw [reminder_outer_foldl]
  simp

theorem create_booking_eval {st : Store} {p : BookingRequest} {w : Workshop}
    {q : String × Session}
    (hw : find_workshop st p.workshop_slug = some w)
    (hv : is_valid_objectid p.session_id = true)
    (hq : find_session_by_id st p.session_id = some q)
    (hm : q.2.workshop_slug = p.workshop_slug) :
    create_booking st p =
      if p.seats > q.2.capacity - total_booked st.bookings p.session_id then
        ([.find "workshop", .find "session", .aggregate "booking"],
         .error ⟨400, capacity_msg
           (q.2.capacity - total_booked st.bookings p.session_id)⟩)
      else
        ([.find "workshop", .find "session", .aggregate "booking",
          .insert "booking", .insert "email"],
         .ok (create_booking_state st p (w.price * (p.seats : Rat)),
              genId st.nextId, w.price * (p.seats : Rat))) := by
  by_cases hg : p.seats > q.2.capacity - total_booked st.bookings p.session_id
  · rw [if_pos hg]
    unfold create_booking
    rw [hw, hq]
    simp [hv, hm, hg]
  · rw [if_neg hg]
    unfold create_booking
    rw [hw, hq]
    simp [hv, hm, hg]

/-! ## Claim theorems -/

unseal Rat.mul in
/-- C1: the claimed serialized capacity invariant is violated by the
code on a fully serialized two-request run.  From the seeded
capacity-10 pottery session with no bookings, a 10-seat booking under
the canonical rendering of the session id succeeds and fills the
session; a second, serialized 10-seat booking addressing the SAME
session through the uppercase rendering of the same ObjectId also
succeeds: the session lookup parses the id case-insensitively (so the
pair is valid and the gate runs against this session), but the
availability aggregation string-matches the raw payload and misses the
first booking, so `available` is computed as 10.  The session — its
bookings resolved by ObjectId, as the system itself resolves them —
then holds 20 pending seats against capacity 10, breaching the spec's
§3/§8 invariant without any concurrency. -/
theorem c1_serialized_capacity_violation :
    (create_booking potteryStore bookTen).2 =
      .ok (afterTen, genId 0, (24990 : Rat)) ∧
    is_valid_objectid upperTen.session_id = true ∧
    oid upperTen.session_id = potterySessionId ∧
    find_session_by_id afterTen upperTen.session_id =
      some (potterySessionId, pottery_session) ∧
    (create_booking afterTen upperTen).2 =
      .ok (afterTwenty, genId 1, (24990 : Rat)) ∧
    runOps potteryStore [Op.book bookTen, Op.book upperTen] = afterTwenty ∧
    afterTwenty.sessions = [(potterySessionId, pottery_session)] ∧
    pottery_session.capacity = 10 ∧
    total_booked_oid afterTwenty.bookings potterySessionId = 20 ∧
    ¬ capacityOk_oid afterTwenty := by
  refine ⟨by decide, by decide, by decide, by decide, by decide, by decide,
    by decide, by decide, by decide, by decide⟩

/-- C2: whenever the workshop and session resolve and match (a valid
workshop/session pair), a request for exactly the raw availability
`capacity - total_booked` succeeds, returning the generated booking id
and amount `price * seats`, while a request for availability + 1 fails
with the CapacityExceeded error `capacity_msg`.  The witness
instantiates the seeded pottery workshop (price 2499) on a fresh
capacity-10 session: seats=10 succeeds with amount 24990, then seats=1
fails with "Only 0 seats left". -/
theorem c2_availability_boundary (st : Store) (p : BookingRequest)
    (w : Workshop) (q : String × Session)
    (hw : find_workshop st p.workshop_slug = some w)
    (hv : is_valid_objectid p.session_id = true)
    (hq : find_session_by_id st p.session_id = some q)
    (hm : q.2.workshop_slug = p.workshop_slug) :
    (p.seats = q.2.capacity - total_booked st.bookings p.session_id →
      (create_booking st p).2 =
        .ok (create_booking_state st p (w.price * (p.seats : Rat)),
             genId st.nextId, w.price * (p.seats : Rat))) ∧
    (p.seats = q.2.capacity - total_booked st.bookings p.session_id + 1 →
      (create_booking st p).2 =
        .error ⟨400, capacity_msg
          (q.2.capacity - total_booked st.bookings p.session_id)⟩) := by
  constructor
  · intro hs
    rw [create_booking_eval hw hv hq hm, if_neg (by omega)]
  · intro hs
    rw [create_booking_eval hw hv hq hm, if_pos (by omega)]

unseal Rat.mul in
theorem c2_availability_boundary_witness :
    (create_booking potteryStore bookTen).2 =
      .ok (create_booking_state potteryStore bookTen
             (pottery_workshop.price * (bookTen.seats : Rat)),
           genId potteryStore.nextId,
           pottery_workshop.price * (bookTen.seats : Rat)) ∧
    pottery_workshop.price * (bookTen.seats : Rat) = 24990 ∧
    (create_booking afterTen bookOne).2 =
      .error ⟨400, "Only 0 seats left"⟩ := by
  refine ⟨?_, by decide, ?_⟩
  · exact (c2_availability_boundary potteryStore bookTen pottery_workshop
      (potterySessionId, pottery_session)
      (by decide) (by decide) (by decide) (by decide)).1 (by decide)
  · have h := (c2_availability_boundary afterTen bookOne pottery_workshop
      (potterySessionId, pottery_session)
      (by decide) (by decide) (by decide) (by decide)).2 (by decide)
    rw [h]
    decide

/-- C3: the availability the system uses is
`capacity - total_booked` over pending/confirmed bookings; the display
path (`next_session`'s `available_seats` annotation) floors that value
at 0, while the booking gate compares the requested seats against the
raw, possibly negative, un-floored difference. -/
theorem c3_raw_vs_floored_availability (st : Store) (now : Int)
    (p : BookingRequest) (w : Workshop) (q : String × Session)
    (hw : find_workshop st p.workshop_slug = some w)
    (hv : is_valid_objectid p.session_id = true)
    (hq : find_session_by_id st p.session_id = some q)
    (hm : q.2.workshop_slug = p.workshop_slug) :
    (∀ k s avail, next_session st now = some (k, s, avail) →
      avail = max 0 (s.capacity - total_booked st.bookings k)) ∧
    ((create_booking st p).2 =
        .error ⟨400, capacity_msg
          (q.2.capacity - total_booked st.bookings p.session_id)⟩ ↔
      p.seats > q.2.capacity - total_booked st.bookings p.session_id) := by
  constructor
  · intro k s avail hns
    unfold next_session at hns
    rcases he : earliest_upcoming st now with _ | u
    · rw [he] at hns
      simp at hns
    · rw [he] at hns
      simp only [Option.some.injEq] at hns
      cases hns
      rfl
  · rw [create_booking_eval hw hv hq hm]
    by_cases hg : p.seats > q.2.capacity - total_booked st.bookings p.session_id
    · simp [hg]
    · simp [hg]

theorem c3_raw_vs_floored_availability_witness :
    next_session overbookedStore 0 =
      some (potterySessionId, ob_session,
        max 0 (ob_session.capacity -
          total_booked overbookedStore.bookings potterySessionId)) ∧
    max 0 (ob_session.capacity -
      total_booked overbookedStore.bookings potterySessionId) = 0 ∧
    ob_session.capacity - total_booked overbookedStore.bookings potterySessionId
      = -2 ∧
    (create_booking overbookedStore bookZero).2 =
      .error ⟨400, "Only -2 seats left"⟩ := by
  refine ⟨by decide, by decide, by decide, ?_⟩
  have h := (c3_raw_vs_floored_availability overbookedStore 0 bookZero
    pottery_workshop (potterySessionId, ob_session)
    (by decide) (by decide) (by decide) (by decide)).2
  have h2 := h.mpr (by decide)
  rw [h2]
  decide

/-- C4: every successful `create_booking` call persists exactly one new
booking — status `pending_payment`, amount `price * seats`, stored
under the returned id — appends exactly one notification log entry of
type "booking_created", and returns the new booking id with that
amount. -/
theorem c4_successful_booking_effects {st : Store} {p : BookingRequest}
    {st' : Store} {bid : String} {amt : Rat}
    (h : (create_booking st p).2 = .ok (st', bid, amt)) :
    ∃ w, find_workshop st p.workshop_slug = some w ∧
      amt = w.price * (p.seats : Rat) ∧
      st'.bookings = st.bookings ++ [(bid, new_booking p amt)] ∧
      (new_booking p amt).status = "pending_payment" ∧
      (new_booking p amt).amount = amt ∧
      st'.emails = st.emails ++ [booking_created_email p bid] ∧
      (booking_created_email p bid).type = "booking_created" := by
  obtain ⟨w, q, hw, hv, hq, hm, hg, hbid, hamt, hst⟩ := create_booking_ok h
  subst hst
  subst hbid
  exact ⟨w, hw, hamt, rfl, rfl, rfl, rfl, rfl⟩

unseal Rat.mul in
theorem c4_successful_booking_effects_witness :
    (create_booking potteryStore bookTen).2 =
      Except.ok (afterTen, genId potteryStore.nextId, (24990 : Rat)) ∧
    afterTen.bookings =
      potteryStore.bookings ++
        [(genId potteryStore.nextId, new_booking bookTen 24990)] ∧
    afterTen.emails =
      potteryStore.emails ++
        [booking_created_email bookTen (genId potteryStore.nextId)] := by
  have hok : (create_booking potteryStore bookTen).2 =
      Except.ok (afterTen, genId potteryStore.nextId, (24990 : Rat)) := by
    decide
  obtain ⟨w, hw, hamt, hbs, _, _, hes, _⟩ :=
    c4_successful_booking_effects hok
  exact ⟨hok, hbs, hes⟩

/-- C5: `confirm_payment` fails with 404 "Booking not found" when no
booking matches a well-formed id; when a booking matches, it sets that
booking's status to confirmed and stores the supplied payment
reference, with no guard on the prior status (cancelled or
already-confirmed bookings included), and appends exactly two
notification log entries: "booking_confirmed" to the customer and
"admin_new_booking" to the fixed administrative address.  (A malformed
id fails earlier with 400 "Invalid id" — the spec's §7 files malformed
ids under its NotFound error kind.) -/
theorem c5_confirm_payment_behavior (st : Store)
    (p : PaymentConfirmRequest) :
    (is_valid_objectid p.booking_id = true →
      (st.bookings.find? fun r => r.1 == oid p.booking_id) = none →
      confirm_payment st p =
        ([.update "booking"], .error ⟨404, "Booking not found"⟩)) ∧
    (∀ q, is_valid_objectid p.booking_id = true →
      (st.bookings.find? fun r => r.1 == oid p.booking_id) = some q →
      confirm_payment st p =
        ([.update "booking", .find "booking", .insert "email", .insert "email"],
         .ok ({ st with
                 bookings := (update_first st.bookings (oid p.booking_id)
                   (confirm_update p.payment_reference)).2
                 emails := st.emails ++
                   [booking_confirmed_email
                      (confirm_update p.payment_reference q.2) p,
                    admin_new_booking_email p] }, "confirmed")) ∧
      ((update_first st.bookings (oid p.booking_id)
          (confirm_update p.payment_reference)).2.find?
            fun r => r.1 == oid p.booking_id) =
        some (q.1, confirm_update p.payment_reference q.2) ∧
      (confirm_update p.payment_reference q.2).status = "confirmed" ∧
      (confirm_update p.payment_reference q.2).payment_reference =
        some p.payment_reference ∧
      (booking_confirmed_email
        (confirm_update p.payment_reference q.2) p).«to» =
          q.2.customer_email ∧
      (admin_new_booking_email p).«to» = "admin@handiq.example") := by
  constructor
  · intro hv hnone
    have hfalse : (update_first st.bookings (oid p.booking_id)
        (confirm_update p.payment_reference)).1 = false := by
      rw [update_first_matched, List.any_eq_false]
      intro x hx
      exact List.find?_eq_none.mp hnone x hx
    unfold confirm_payment
    simp [hv, hfalse]
  · intro q hv hq
    have htrue : (update_first st.bookings (oid p.booking_id)
        (confirm_update p.payment_reference)).1 = true := by
      rw [update_first_matched]
      have hpq : (q.1 == oid p.booking_id) = true := by
        simpa using List.find?_some hq
      exact List.any_eq_true.mpr
        ⟨q, List.mem_of_find?_eq_some hq, hpq⟩
    have hfind := update_first_find? st.bookings (oid p.booking_id)
      (confirm_update p.payment_reference)
    rw [hq] at hfind
    refine ⟨?_, by simpa using hfind, rfl, rfl, rfl, rfl⟩
    unfold confirm_payment
    simp [hv, htrue, hfind]

theorem c5_confirm_payment_behavior_witness :
    cancelled_booking.status = "cancelled" ∧
    confirm_payment cancelledStore confirmCancelled =
      ([.update "booking", .find "booking", .insert "email", .insert "email"],
       .ok ({ cancelledStore with
               bookings := (update_first cancelledStore.bookings
                 (oid confirmCancelled.booking_id)
                 (confirm_update confirmCancelled.payment_reference)).2
               emails := cancelledStore.emails ++
                 [booking_confirmed_email
                    (confirm_update confirmCancelled.payment_reference
                      cancelled_booking) confirmCancelled,
                  admin_new_booking_email confirmCancelled] }, "confirmed")) ∧
    (confirm_update confirmCancelled.payment_reference
      cancelled_booking).status = "confirmed" ∧
    (confirm_update confirmCancelled.payment_reference
      cancelled_booking).payment_reference = some "PAY_123" := by
  have h := (c5_confirm_payment_behavior cancelledStore confirmCancelled).2
    ("64a0000000000000000000aa", cancelled_booking) (by decide) (by decide)
  exact ⟨rfl, h.1, h.2.2.1, h.2.2.2.1⟩

/-- C6: one `send_reminders` invocation appends exactly one "reminder"
notification log entry per confirmed booking on each session starting
within the next 24 hours and returns the number appended; bookings in
any other status produce no entry, so the concrete window holding one
confirmed and one pending_payment booking yields count 1. -/
theorem c6_send_reminders_count (st : Store) (now : Int) :
    (send_reminders st now).1.emails = st.emails ++ reminder_list st now ∧
    (send_reminders st now).2 = (reminder_list st now).length ∧
    (send_reminders st now).1.bookings = st.bookings ∧
    (send_reminders st now).1.sessions = st.sessions ∧
    (∀ e ∈ reminder_list st now, e.type = "reminder") ∧
    reminder_list reminderStore 0 =
      [reminder_email "64a0000000000000000000b2" rem_confirmed_booking] ∧
    (send_reminders reminderStore 0).2 = 1 := by
  refine ⟨?_, ?_, ?_, ?_, ?_, by decide, by decide⟩
  · rw [send_reminders_eq]
  · rw [send_reminders_eq]
  · rw [send_reminders_eq]
  · rw [send_reminders_eq]
  · intro e he
    unfold reminder_list at he
    rw [List.mem_flatten] at he
    obtain ⟨l, hl, hel⟩ := he
    rw [List.mem_map] at hl
    obtain ⟨s, _, rfl⟩ := hl
    rw [List.mem_map] at hel
    obtain ⟨r, _, rfl⟩ := hel
    rfl

/-- C7: `create_booking` fails with 404 "Workshop not found" whenever
the workshop slug matches no workshop, and with a 400
(InvalidArgument) whenever the session id matches no session — either
because it fails to parse ("Invalid id") or because no session has that
id, or because the matched session belongs to another workshop
("Invalid session"); in every such failure the availability aggregation
is never issued. -/
theorem c7_create_booking_error_cases (st : Store) (p : BookingRequest) :
    (find_workshop st p.workshop_slug = none →
      create_booking st p =
        ([.find "workshop"], .error ⟨404, "Workshop not found"⟩) ∧
      StoreOp.aggregate "booking" ∉ (create_booking st p).1) ∧
    (∀ w, find_workshop st p.workshop_slug = some w →
      is_valid_objectid p.session_id = false →
      create_booking st p =
        ([.find "workshop"], .error ⟨400, "Invalid id"⟩) ∧
      StoreOp.aggregate "booking" ∉ (create_booking st p).1) ∧
    (∀ w, find_workshop st p.workshop_slug = some w →
      is_valid_objectid p.session_id = true →
      find_session_by_id st p.session_id = none →
      create_booking st p =
        ([.find "workshop", .find "session"],
         .error ⟨400, "Invalid session"⟩) ∧
      StoreOp.aggregate "booking" ∉ (create_booking st p).1) ∧
    (∀ w q, find_workshop st p.workshop_slug = some w →
      is_valid_objectid p.session_id = true →
      find_session_by_id st p.session_id = some q →
      q.2.workshop_slug ≠ p.workshop_slug →
      create_booking st p =
        ([.find "workshop", .find "session"],
         .error ⟨400, "Invalid session"⟩) ∧
      StoreOp.aggregate "booking" ∉ (create_booking st p).1) := by
  refine ⟨?_, ?_, ?_, ?_⟩
  · intro hw
    have hcb : create_booking st p =
        ([.find "workshop"], .error ⟨404, "Workshop not found"⟩) := by
      unfold create_booking
      rw [hw]
    refine ⟨hcb, ?_⟩
    rw [hcb]
    decide
  · intro w hw hv
    have hcb : create_booking st p =
        ([.find "workshop"], .error ⟨400, "Invalid id"⟩) := by
      unfold create_booking
      rw [hw]
      simp [hv]
    refine ⟨hcb, ?_⟩
    rw [hcb]
    decide
  · intro w hw hv hq
    have hcb : create_booking st p =
        ([.find "workshop", .find "session"],
         .error ⟨400, "Invalid session"⟩) := by
      unfold create_booking
      rw [hw, hq]
      simp [hv]
    refine ⟨hcb, ?_⟩
    rw [hcb]
    decide
  · intro w q hw hv hq hm
    have hcb : create_booking st p =
        ([.find "workshop", .find "session"],
         .error ⟨400, "Invalid session"⟩) := by
      unfold create_booking
      rw [hw, hq]
      simp [hv, hm]
    refine ⟨hcb, ?_⟩
    rw [hcb]
    decide

theorem c7_create_booking_error_cases_witness :
    create_booking potteryStore bookNoShop =
      ([.find "workshop"], .error ⟨404, "Workshop not found"⟩) ∧
    create_booking potteryStore bookBadSession =
      ([.find "workshop"], .error ⟨400, "Invalid id"⟩) ∧
    create_booking potteryStore bookWrongShop =
      ([.find "workshop", .find "session"],
       .error ⟨400, "Invalid session"⟩) := by
  refine ⟨?_, ?_, ?_⟩
  · exact ((c7_create_booking_error_cases potteryStore bookNoShop).1
      (by decide)).1
  · exact ((c7_create_booking_error_cases potteryStore bookBadSession).2.1
      pottery_workshop (by decide) (by decide)).1
  · exact ((c7_create_booking_error_cases
      potteryStore bookWrongShop).2.2.2 embroidery_workshop
      (potterySessionId, pottery_session)
      (by decide) (by decide) (by decide) (by decide)).1

/-- C8 counterexample: `create_booking` parses `session_id` only after
the workshop find-by-slug has already been issued, so a request whose
session id fails to parse still causes a find call to reach the
document store — refuting "no find, update, or aggregate call reaches
the document store when the identifier fails to parse". -/
theorem c8_counterexample :
    is_valid_objectid bookBadSession.session_id = false ∧
    StoreOp.find "workshop" ∈ (create_booking potteryStore bookBadSession).1 := by
  decide

/-- C8 (amended): `get_booking` and `confirm_payment` reject a
malformed booking id before any store access (empty operation trace);
`create_booking` rejects a malformed session id before any session
find, booking aggregate, or insert — but only after the workshop
find-by-slug has already reached the store (its trace is exactly that
one find). -/
theorem c8_store_access_on_malformed_id (st : Store) (id_str : String)
    (h : is_valid_objectid id_str = false) :
    (get_booking st id_str).1 = [] ∧
    (∀ p : PaymentConfirmRequest, p.booking_id = id_str →
      (confirm_payment st p).1 = []) ∧
    (∀ p : BookingRequest, p.session_id = id_str →
      (create_booking st p).1 = [] ∨
        (create_booking st p).1 = [.find "workshop"]) := by
  refine ⟨?_, ?_, ?_⟩
  · unfold get_booking
    simp [h]
  · intro p hp
    unfold confirm_payment
    rw [hp]
    simp [h]
  · intro p hp
    right
    rcases hw : find_workshop st p.workshop_slug with _ | w
    · unfold create_booking
      rw [hw]
    · unfold create_booking
      rw [hw, hp]
      simp [h]

theorem c8_store_access_on_malformed_id_witness :
    (get_booking potteryStore "zzz").1 = [] ∧
    (confirm_payment potteryStore ⟨"zzz", "PAY_9"⟩).1 = [] ∧
    ((create_booking potteryStore bookBadSession).1 = [] ∨
      (create_booking potteryStore bookBadSession).1 = [.find "workshop"]) := by
  have h := c8_store_access_on_malformed_id potteryStore "zzz" (by decide)
  exact ⟨h.1, h.2.1 ⟨"zzz", "PAY_9"⟩ rfl, h.2.2 bookBadSession rfl⟩

unseal Rat.mul in
/-- C9: contrary to the 1..10 seats range declared by
`schemas.Booking`, `create_booking` performs no range check
(`BookingRequest` in `main.py` declares `seats: int = 1` unbounded), so
a request with `seats = 0` passes the gate (`0 > available` is false)
and persists a booking whose `seats` is 0 — outside 1..10. -/
theorem c9_seats_range_violation :
    bookZero.seats = 0 ∧
    (create_booking potteryStore bookZero).2 =
      .ok (create_booking_state potteryStore bookZero 0, genId 0, (0 : Rat)) ∧
    (create_booking_state potteryStore bookZero 0).bookings =
      [(genId 0, new_booking bookZero 0)] ∧
    (new_booking bookZero 0).seats = 0 ∧
    ¬(1 ≤ (new_booking bookZero 0).seats ∧
        (new_booking bookZero 0).seats ≤ 10) := by
  refine ⟨rfl, by decide, rfl, rfl, by decide⟩

/-- C10: whenever `create_booking` fails with any error, no insert
reaches the document store — every write in the handler comes after
every raise — so no booking document and no notification log entry is
created by the failing call. -/
theorem c10_error_leaves_store_unchanged (st : Store) (p : BookingRequest)
    (e : HTTPError) (h : (create_booking st p).2 = .error e) :
    ∀ c, StoreOp.insert c ∉ (create_booking st p).1 := by
  intro c
  rcases hw : find_workshop st p.workshop_slug with _ | w
  · unfold create_booking
    rw [hw]
    simp
  · by_cases hv : is_valid_objectid p.session_id
    · rcases hq : find_session_by_id st p.session_id with _ | q
      · unfold create_booking
        rw [hw, hq]
        simp [hv]
      · by_cases hm : q.2.workshop_slug = p.workshop_slug
        · rw [create_booking_eval hw hv hq hm] at h ⊢
          by_cases hg : p.seats >
              q.2.capacity - total_booked st.bookings p.session_id
          · rw [if_pos hg]
            simp
          · rw [if_neg hg] at h
            simp at h
        · unfold create_booking
          rw [hw, hq]
          simp [hv, hm]
    · unfold create_booking
      rw [hw]
      have hv' : is_valid_objectid p.session_id = false := by simpa using hv
      simp [hv']

theorem c10_error_leaves_store_unchanged_witness :
    StoreOp.insert "booking" ∉ (create_booking potteryStore bookBadSession).1 ∧
    StoreOp.insert "email" ∉ (create_booking potteryStore bookBadSession).1 := by
  have h := c10_error_leaves_store_unchanged potteryStore bookBadSession
    ⟨400, "Invalid id"⟩ (by decide)
  exact ⟨h "booking", h "email"⟩

end Handiq
